import Mathlib

/-!
Shallow embedding of the Python-Terminal repository
(`terminal.py`, `ai_interface.py`) and proofs about it.

The embedding models:
* Python string primitives used by the source (`strip`, `lower`, `split`,
  `'\n'.join`, `os.path` functions, `shlex.split`),
* the mutable session (`PythonTerminal` instance state) and the
  process-global state touched by the source (`os.chdir`, `os.environ`,
  the filesystem),
* the command engine (`execute_command`, `execute_external_command`),
  the builtin registry and its handlers, and
* the natural-language layer (`AITerminalInterface.interpret_command`
  and its helper stages), including a small backtracking regex engine
  mirroring `re.search` for the pattern tables of the source.

OS-dependent observations (directory listings, process snapshots,
external process execution) are oracle fields of a `World` record;
everything the source computes from those observations is embedded
faithfully.
-/

namespace PyTerm

/-! ## Python string helpers -/

/-- Whitespace characters recognised by Python `str.strip()` / `str.split()`
(the ASCII subset, which is all the source ever feeds them). -/
def pyIsSpaceChar (c : Char) : Bool :=
  c = ' ' || c = '\t' || c = '\n' || c = '\r' || c = '\x0b' || c = '\x0c'

def pyStripChars (l : List Char) : List Char :=
  ((l.dropWhile pyIsSpaceChar).reverse.dropWhile pyIsSpaceChar).reverse

/-- Python `str.strip()`. -/
def pyStrip (s : String) : String := String.mk (pyStripChars s.data)

/-- Python `str.lower()` (ASCII; the source only lowers ASCII command text). -/
def pyLower (s : String) : String := String.mk (s.data.map Char.toLower)

/-- Python `str.startswith` (char-list implementation, kernel-evaluable). -/
def strStartsWith (s pre : String) : Bool := List.isPrefixOf pre.data s.data

/-- Python `str.endswith`. -/
def strEndsWith (s suf : String) : Bool := List.isSuffixOf suf.data s.data

/-- Membership of a character in a string (Python `c in s`). -/
def strHasChar (s : String) (c : Char) : Bool := s.data.contains c

def splitOnCharAux (sep : Char) : List Char → List Char → List String
  | [], cur => [String.mk cur.reverse]
  | c :: rest, cur =>
    if c = sep then String.mk cur.reverse :: splitOnCharAux sep rest []
    else splitOnCharAux sep rest (c :: cur)

/-- Python `s.split(sep)` for a one-character separator (keeps empty
fields, `"".split(sep) == [""]`). -/
def pySplitChar (sep : Char) (s : String) : List String :=
  splitOnCharAux sep s.data []

def strIntercalate (sep : String) : List String → String
  | [] => ""
  | [x] => x
  | x :: xs => x ++ sep ++ strIntercalate sep xs

def pySplitWSAux : List Char → List Char → List String
  | [], cur => if cur.isEmpty then [] else [String.mk cur.reverse]
  | c :: rest, cur =>
    if pyIsSpaceChar c then
      if cur.isEmpty then pySplitWSAux rest []
      else String.mk cur.reverse :: pySplitWSAux rest []
    else pySplitWSAux rest (c :: cur)

/-- Python `str.split()` with no argument: split on whitespace runs,
dropping empty fields. -/
def pySplitWS (s : String) : List String := pySplitWSAux s.data []

/-- Python `'\n'.join(results)`. -/
def strJoinNL (l : List String) : String := strIntercalate "\n" l

/-- Model of `os.path.isabs` (POSIX). -/
def pyIsAbs (p : String) : Bool := strStartsWith p "/"

/-- Model of `os.path.join(a, b)` for one extra component (POSIX semantics). -/
def pyJoin (a b : String) : String :=
  if strStartsWith b "/" then b
  else if a = "" || strEndsWith a "/" then a ++ b
  else a ++ "/" ++ b

/-- Model of `posixpath.normpath`. -/
def pyNormPath (p : String) : String :=
  if p = "" then "." else
  let initialSlashes : Nat :=
    if strStartsWith p "/" then
      (if strStartsWith p "//" && !(strStartsWith p "///") then 2 else 1)
    else 0
  let comps := pySplitChar '/' p
  let newComps := comps.foldl (fun acc comp =>
    if comp = "" || comp = "." then acc
    else if comp ≠ ".." || (initialSlashes = 0 && acc.isEmpty) ||
            (!acc.isEmpty && acc.getLast? = some "..") then acc ++ [comp]
    else if !acc.isEmpty then acc.dropLast
    else acc) []
  let path := strIntercalate "/" newComps
  let path := String.mk (List.replicate initialSlashes '/') ++ path
  if path = "" then "." else path

/-- Model of `os.path.abspath`, which resolves against the *process* working
directory (not the session one) and normalises. -/
def pyAbsPath (processCwd p : String) : String :=
  pyNormPath (if pyIsAbs p then p else pyJoin processCwd p)

/-- Model of `os.path.basename` (POSIX): everything after the last slash. -/
def pyBasename (p : String) : String := (pySplitChar '/' p).getLastD ""

def charListLt : List Char → List Char → Bool
  | [], [] => false
  | [], _ :: _ => true
  | _ :: _, [] => false
  | a :: as, b :: bs =>
    if a.toNat < b.toNat then true
    else if b.toNat < a.toNat then false
    else charListLt as bs

/-- Python string `<`: code-point lexicographic. -/
def strLtB (a b : String) : Bool := charListLt a.data b.data

/-- Stable ascending insertion for sorting strings the way Python
`sorted` does (code-point lexicographic). -/
def pyInsertStr (x : String) : List String → List String
  | [] => [x]
  | y :: ys => if strLtB y x then y :: pyInsertStr x ys else x :: y :: ys

/-- Python `sorted` on a list of strings. -/
def pySorted (l : List String) : List String := l.foldr pyInsertStr []

/-! ## `shlex.split` (POSIX mode, whitespace_split) -/

/-- Whitespace recognised by `shlex` (its `whitespace` attribute). -/
def shlexIsWS (c : Char) : Bool := c = ' ' || c = '\t' || c = '\r' || c = '\n'

inductive ShMode where
  | ws      -- between tokens
  | word    -- inside an unquoted token
  | squote  -- inside '...'
  | dquote  -- inside "..."
  | escWord -- after backslash, outside quotes
  | escDq   -- after backslash, inside double quotes
deriving DecidableEq, Repr

/-- One pass of the `shlex` posix tokenizer.  `cur` is the current token
(reversed), `has` records that a token has been started (so that quoted
empty tokens are emitted), `acc` the emitted tokens in order. -/
def shlexAux : List Char → ShMode → List Char → Bool → List String →
    Except String (List String)
  | [], .ws, _, _, acc => .ok acc
  | [], .word, cur, _, acc => .ok (acc ++ [String.mk cur.reverse])
  | [], .squote, _, _, _ => .error "No closing quotation"
  | [], .dquote, _, _, _ => .error "No closing quotation"
  | [], .escWord, _, _, _ => .error "No escaped character"
  | [], .escDq, _, _, _ => .error "No escaped character"
  | c :: rest, .ws, _, _, acc =>
    if shlexIsWS c then shlexAux rest .ws [] false acc
    else if c = '\'' then shlexAux rest .squote [] true acc
    else if c = '"' then shlexAux rest .dquote [] true acc
    else if c = '\\' then shlexAux rest .escWord [] true acc
    else shlexAux rest .word [c] true acc
  | c :: rest, .word, cur, has, acc =>
    if shlexIsWS c then shlexAux rest .ws [] false (acc ++ [String.mk cur.reverse])
    else if c = '\'' then shlexAux rest .squote cur has acc
    else if c = '"' then shlexAux rest .dquote cur has acc
    else if c = '\\' then shlexAux rest .escWord cur has acc
    else shlexAux rest .word (c :: cur) has acc
  | c :: rest, .squote, cur, has, acc =>
    if c = '\'' then shlexAux rest .word cur has acc
    else shlexAux rest .squote (c :: cur) has acc
  | c :: rest, .dquote, cur, has, acc =>
    if c = '"' then shlexAux rest .word cur has acc
    else if c = '\\' then shlexAux rest .escDq cur has acc
    else shlexAux rest .dquote (c :: cur) has acc
  | c :: rest, .escWord, cur, has, acc =>
    shlexAux rest .word (c :: cur) has acc
  | c :: rest, .escDq, cur, has, acc =>
    if c = '\\' || c = '"' then shlexAux rest .dquote (c :: cur) has acc
    else shlexAux rest .dquote (c :: '\\' :: cur) has acc

/-- Model of `shlex.split(line)`: POSIX rules, whitespace splitting; unbalanced
quotes or a trailing escape raise `ValueError` (modelled as `.error`
carrying `str(e)`). -/
def pyShlexSplit (line : String) : Except String (List String) :=
  shlexAux line.data .ws [] false []

/-! ## A small regex engine mirroring `re.search`

`ai_interface.py` only uses these constructs: literal characters,
lazy `.*?`, the classes `\s` `\S` `\w` and `[^"]`, greedy `+` and `?`,
non-capturing alternation `(?:a|b)`, and capturing groups.  The matcher
below implements Python's leftmost, backtracking semantics for exactly
these: alternatives are tried left to right, greedy operators prefer
longer matches, lazy ones shorter, and `search` tries start positions
left to right.  (`re.IGNORECASE` is passed by the source but the input
is already lower-cased, so it is a no-op.) -/

inductive RAtom where
  | dot                -- `.`   : any character except newline
  | space              -- `\s`
  | nonspace           -- `\S`
  | word               -- `\w` (ASCII)
  | lit (c : Char)     -- a literal character
  | notChar (c : Char) -- `[^c]`
deriving DecidableEq, Repr

def atomMatch : RAtom → Char → Bool
  | .dot, c => c ≠ '\n'
  | .space, c => pyIsSpaceChar c
  | .nonspace, c => !pyIsSpaceChar c
  | .word, c => c.isAlphanum || c = '_'
  | .lit c0, c => c = c0
  | .notChar c0, c => c ≠ c0

inductive RE where
  | eps
  | atom (a : RAtom)
  | seq (r₁ r₂ : RE)
  | alt (r₁ r₂ : RE)
  | group (r : RE)
  | star (r : RE) (lzy : Bool)
  | opt (r : RE)
deriving Repr

def reSize : RE → Nat
  | .eps => 1
  | .atom _ => 1
  | .seq a b => reSize a + reSize b + 1
  | .alt a b => reSize a + reSize b + 1
  | .group r => reSize r + 1
  | .star r _ => reSize r + 1
  | .opt r => reSize r + 1

/-- Backtracking matcher in continuation style.  `caps` accumulates the
text of completed capturing groups in order; the continuation receives
the remaining input.  The first success in Python's backtracking order
is returned.  `fuel` decreases on every call; it is instantiated
generously enough for every chain of calls the patterns of the source
can produce. -/
def mrun : Nat → RE → List Char → List (List Char) →
    (List Char → List (List Char) → Option (List (List Char))) →
    Option (List (List Char))
  | 0, _, _, _, _ => none
  | fuel + 1, r, s, caps, k =>
    match r with
    | .eps => k s caps
    | .atom a =>
      match s with
      | [] => none
      | c :: rest => if atomMatch a c then k rest caps else none
    | .seq r₁ r₂ => mrun fuel r₁ s caps (fun s1 c1 => mrun fuel r₂ s1 c1 k)
    | .alt r₁ r₂ =>
      match mrun fuel r₁ s caps k with
      | some res => some res
      | none => mrun fuel r₂ s caps k
    | .group r₀ =>
      mrun fuel r₀ s caps
        (fun s1 c1 => k s1 (c1 ++ [s.take (s.length - s1.length)]))
    | .star r₀ lzy =>
      if lzy then
        match k s caps with
        | some res => some res
        | none =>
          mrun fuel r₀ s caps (fun s1 c1 =>
            if s1.length < s.length then mrun fuel (.star r₀ lzy) s1 c1 k
            else none)
      else
        match mrun fuel r₀ s caps (fun s1 c1 =>
            if s1.length < s.length then mrun fuel (.star r₀ lzy) s1 c1 k
            else none) with
        | some res => some res
        | none => k s caps
    | .opt r₀ =>
      match mrun fuel r₀ s caps k with
      | some res => some res
      | none => k s caps

def reFuel (r : RE) (s : List Char) : Nat :=
  (s.length + 1) * (reSize r + 2) + reSize r + 2

/-- Try to match `r` at the start of `s`; on failure advance one
character, as `re.search` does (leftmost match wins). -/
def reSearchFrom (r : RE) : List Char → Option (List (List Char))
  | [] => mrun (reFuel r []) r [] [] (fun _ caps => some caps)
  | c :: rest =>
    match mrun (reFuel r (c :: rest)) r (c :: rest) [] (fun _ caps => some caps) with
    | some caps => some caps
    | none => reSearchFrom r rest

/-- Model of `re.search(r, s)`, returning `match.groups()` on success. -/
def reSearch (r : RE) (s : String) : Option (List String) :=
  (reSearchFrom r s.data).map (fun caps => caps.map String.mk)

/-! ## Regex notation helpers (source patterns are built from these) -/

def rcat : List RE → RE
  | [] => .eps
  | [r] => r
  | r :: rs => .seq r (rcat rs)

def rlit (s : String) : RE := rcat (s.data.map (fun c => RE.atom (RAtom.lit c)))

def ralt : List RE → RE
  | [] => .eps
  | [r] => r
  | r :: rs => .alt r (ralt rs)

/-- Lazy dot-star `.*?`. -/
def lazyDots : RE := .star (.atom .dot) true

/-- greedy `+` -/
def rplus (r : RE) : RE := .seq r (.star r false)

/-- Class-plus `\S+`. -/
def rS1 : RE := rplus (.atom .nonspace)

/-- Class-plus `\s+`. -/
def rsp1 : RE := rplus (.atom .space)

/-- Patterns like `files?`: a literal with a greedy-optional final `s`. -/
def rlitOptS (s : String) : RE := .seq (rlit s) (.opt (.atom (.lit 's')))

/-- Python `str.format` for the templates of the source: replaces `{i}` (single
digit) by the i-th parameter. -/
def pyFormatAux : List Char → List String → List Char
  | [], _ => []
  | c :: d :: c2 :: rest2, params =>
    if c = '\x7b' && d.isDigit && c2 = '\x7d' then
      (params.getD (d.toNat - 48) "").data ++ pyFormatAux rest2 params
    else c :: pyFormatAux (d :: c2 :: rest2) params
  | c :: rest, params => c :: pyFormatAux rest params

def pyFormat (template : String) (params : List String) : String :=
  String.mk (pyFormatAux template.data params)

/-! ## Data model: filesystem, OS world, process-global state, session -/

inductive PathKind where
  | dir
  | file
  | absent
deriving DecidableEq, Repr

/-- The filesystem as observed through `os.path.isdir` / `os.path.isfile`
/ `os.path.exists` (existence and kind per absolute path). -/
def FS : Type := String → PathKind

def fsRemoveFile (fs : FS) (p : String) : FS :=
  fun q => if q = p then .absent else fs q

/-- Model of `shutil.rmtree`: the path and everything below it disappears. -/
def fsRemoveTree (fs : FS) (p : String) : FS :=
  fun q => if q = p || strStartsWith q (p ++ "/") then .absent else fs q

def fsSet (fs : FS) (p : String) (k : PathKind) : FS :=
  fun q => if q = p then k else fs q

/-- Model of `os.makedirs(p, exist_ok=True)`: the path and its ancestors become
directories. -/
def fsMakeDirs (fs : FS) (p : String) : FS :=
  let comps := (pySplitChar '/' p).filter (· ≠ "")
  let start := if pyIsAbs p then "/" else ""
  let paths := (comps.foldl (fun (st : String × List String) c =>
      let cur := if st.1 = "" then c
                 else if st.1 = "/" then "/" ++ c
                 else st.1 ++ "/" ++ c
      (cur, st.2 ++ [cur])) (start, [])).2
  paths.foldl (fun f q => fsSet f q .dir) fs

/-- Model of `shutil.copytree` and `shutil.copy2`: the destination subtree mirrors
the source subtree. -/
def fsCopyTree (fs : FS) (src dst : String) : FS :=
  fun q =>
    if q = dst then fs src
    else if strStartsWith q (dst ++ "/") then
      fs (pyJoin src (String.mk (q.data.drop (dst.length + 1))))
    else fs q

inductive ReadErr where
  | notFound
  | permission (msg : String)
  | binary (msg : String)
  | other (msg : String)
deriving Repr

inductive KillOutcome where
  | ok
  | noSuch
  | accessDenied
  | err (msg : String)
deriving Repr

/-- Outcome of `subprocess.run([command] + args, cwd=…, capture_output=True,
text=True, timeout=…)`. -/
inductive ExternResult where
  | completed (stdout stderr : String) (returncode : Int)
  | timedOut
  | notFound
  | failed (msg : String)
deriving Repr

/-- OS observations the source makes.  Pure data the source merely
relays (process/resource snapshots, stat formatting, file contents,
clock) are oracle fields; everything computed from them is embedded. -/
structure World where
  home : String                                  -- os.path.expanduser("~")
  expanduser : String → String                   -- os.path.expanduser on a ~-operand
  chdirDenied : String → Bool                    -- os.chdir raises PermissionError
  listDir : String → Except Unit (List String)   -- os.listdir; error = PermissionError
  permDenied : String → Bool                     -- PermissionError on os.remove
  rmdirErr : String → Option String              -- os.rmdir OSError text (e.g. not empty)
  readFile : String → Except ReadErr String      -- open(...).read()
  fileInfoLong : String → String                 -- format_file_info long branch (stat data)
  runExternal : String → List String → String → Nat → ExternResult
  walk : String → List (String × List String × List String)  -- os.walk triples
  fnmatch : String → String → Bool               -- fnmatch.fnmatch(item, pattern)
  psOut : String                                 -- cmd_ps snapshot text
  topOut : String                                -- cmd_top snapshot text
  dfOut : String                                 -- cmd_df snapshot text
  freeOut : String                               -- cmd_free snapshot text
  dateOut : String                               -- datetime.now().strftime(...)
  killOutcome : Int → KillOutcome                -- psutil terminate result
  dirNonEmpty : String → Bool                    -- unused helper retained for clarity

/-- Process-global mutable state the source touches: the real
filesystem, the process working directory (`os.getcwd`/`os.chdir`) and
`os.environ`.  This state is shared by every session in the process. -/
structure GlobalState where
  fs : FS
  processCwd : String
  osEnviron : List (String × String)

/-- The per-instance state of `PythonTerminal`. -/
structure Session where
  current_directory : String
  command_history : List String
  aliases : List (String × String)
  environment_vars : List (String × String)

/-- Model of `PythonTerminal.__init__`: starts at `os.getcwd()` with a copy of
`os.environ`. -/
def Session.init (g : GlobalState) : Session :=
  { current_directory := g.processCwd
    command_history := []
    aliases := []
    environment_vars := g.osEnviron }

/-! ### dict helpers (insertion-ordered association lists) -/

def alistLookup {α : Type} : List (String × α) → String → Option α
  | [], _ => none
  | (k, v) :: rest, key => if k = key then some v else alistLookup rest key

/-- Python dict assignment `d[k] = v`: overwrite in place or append. -/
def alistSet {α : Type} : List (String × α) → String → α → List (String × α)
  | [], k, v => [(k, v)]
  | (k0, v0) :: rest, k, v =>
    if k0 = k then (k, v) :: rest else (k0, v0) :: alistSet rest k v

def pyGetenv (g : GlobalState) (k dflt : String) : String :=
  match alistLookup g.osEnviron k with
  | some v => v
  | none => dflt

/-! ### more Python string helpers used by the builtins -/

def pySplitOnceCharAux (sep : Char) : List Char → List Char → String × String
  | [], acc => (String.mk acc.reverse, "")
  | c :: rest, acc =>
    if c = sep then (String.mk acc.reverse, String.mk rest)
    else pySplitOnceCharAux sep rest (c :: acc)

/-- Python `s.split(sep, 1)` for a one-character separator. -/
def pySplitOnceChar (sep : Char) (s : String) : String × String :=
  pySplitOnceCharAux sep s.data []

/-- Python `str.rstrip()`. -/
def strRStrip (s : String) : String :=
  String.mk (s.data.reverse.dropWhile pyIsSpaceChar).reverse

/-- The lines produced by iterating over an open text file, without
their trailing newline (the source immediately `rstrip`s them). -/
def pyFileLines (content : String) : List String :=
  if content = "" then []
  else
    let ls := pySplitChar '\n' content
    if strEndsWith content "\n" then ls.dropLast else ls

def strContainsAux (pat : List Char) : List Char → Bool
  | [] => List.isPrefixOf pat []
  | c :: rest => List.isPrefixOf pat (c :: rest) || strContainsAux pat rest

/-- Python `pattern in line` (substring test). -/
def strContains (s pat : String) : Bool := strContainsAux pat.data s.data

def digitsVal : List Char → Option Nat
  | [] => none
  | ds =>
    if ds.all Char.isDigit then
      some (ds.foldl (fun n c => n * 10 + (c.toNat - 48)) 0)
    else none

/-- Python `int(s)` for decimal strings, `none` = `ValueError`. -/
def pyParseInt (s : String) : Option Int :=
  match (pyStrip s).data with
  | '+' :: ds => (digitsVal ds).map Int.ofNat
  | '-' :: ds => (digitsVal ds).map (fun n => -(n : Int))
  | ds => (digitsVal ds).map Int.ofNat

/-- Formatting `f"{i:3d}"`. -/
def padNum3 (n : Nat) : String :=
  let s := toString n
  if s.length < 3 then String.mk (List.replicate (3 - s.length) ' ') ++ s else s

/-- Ascending order on environment entries, as Python `sorted` on
`(key, value)` tuples. -/
def pairLt (a b : String × String) : Bool :=
  strLtB a.1 b.1 || (a.1 = b.1 && strLtB a.2 b.2)

def pyInsertPair (x : String × String) :
    List (String × String) → List (String × String)
  | [] => [x]
  | y :: ys => if pairLt y x then y :: pyInsertPair x ys else x :: y :: ys

/-! ## Builtin handlers

A handler receives the world, the process-global state, the session and
the argument list, and returns `(.ok output | .error detail, session,
global)` — `.error` standing for an uncaught Python exception escaping
the handler (the engine's failure boundary turns it into a message). -/

def HandlerResult : Type := Except String String × Session × GlobalState

def Handler : Type := World → GlobalState → Session → List String → HandlerResult

/-- Handler that only reads state. -/
def pureHandler (f : World → GlobalState → Session → List String → String) : Handler :=
  fun w g s args => (.ok (f w g s args), s, g)

/-- Handler that reads the session and reads/writes the filesystem. -/
def fsHandler (f : World → Session → List String → FS → String × FS) : Handler :=
  fun w g s args =>
    (.ok (f w s args g.fs).1, s, { g with fs := (f w s args g.fs).2 })

/-- The fully resolved `cd` target: no argument means the user home;
a `~`-operand is expanded; a relative operand is joined with the
session directory; finally `os.path.abspath` normalises. -/
def cdTarget (w : World) (g : GlobalState) (s : Session) (args : List String) : String :=
  pyAbsPath g.processCwd
    (match args with
     | [] => w.home
     | t :: _ =>
       if strStartsWith t "~" then w.expanduser t
       else if pyIsAbs t then t
       else pyJoin s.current_directory t)

/-- Model of `cmd_cd`.  Note the source assigns `self.current_directory` *before*
calling `os.chdir`, so a `PermissionError` from `os.chdir` leaves the
session already pointing at the target while the process cwd stays. -/
def cmd_cd : Handler := fun w g s args =>
  let target := cdTarget w g s args
  if g.fs target = .dir then
    if w.chdirDenied target then
      (.ok ("Permission denied: " ++ target),
       { s with current_directory := target }, g)
    else
      (.ok ("Changed directory to: " ++ target),
       { s with current_directory := target }, { g with processCwd := target })
  else (.ok ("Directory not found: " ++ target), s, g)

def cmd_pwd : Handler := pureHandler fun _ _ s _ => s.current_directory

/-- Model of `format_file_info`; the long format is OS `stat` data relayed
verbatim, hence an oracle. -/
def format_file_info (w : World) (path : String) (long_format : Bool) : String :=
  if !long_format then pyBasename path else w.fileInfoLong path

/-- Model of `cmd_ls`: `os.path.exists`/`os.listdir` resolve a relative argument
against the *process* working directory (the source does not join the
argument with the session directory here). -/
def cmd_ls : Handler := pureHandler fun w g s args =>
  let path := match args with | [] => s.current_directory | p :: _ => p
  let show_hidden := args.contains "-a" || args.contains "--all"
  let long_format := args.contains "-l" || args.contains "--long"
  let abs := if pyIsAbs path then path else pyJoin g.processCwd path
  if g.fs abs = .absent then "Path not found: " ++ path
  else if g.fs abs = .file then format_file_info w path long_format
  else
    match w.listDir abs with
    | .error _ => "Permission denied: " ++ path
    | .ok items0 =>
      let items := (items0.filter (fun it => show_hidden || !strStartsWith it ".")).map
        (fun it => if long_format then format_file_info w (pyJoin path it) true else it)
      if items.isEmpty then "Directory is empty" else strJoinNL (pySorted items)

def cmd_mkdir : Handler := fsHandler fun _ s args fs =>
  if args.isEmpty then ("Usage: mkdir <directory_name>", fs)
  else
    let st := args.foldl (fun (st : List String × FS) dir_name =>
      let dir_path := if pyIsAbs dir_name then dir_name
                      else pyJoin s.current_directory dir_name
      (st.1 ++ ["Created directory: " ++ dir_name], fsMakeDirs st.2 dir_path))
      ([], fs)
    (strJoinNL st.1, st.2)

def cmd_rmdir : Handler := fsHandler fun w s args fs =>
  if args.isEmpty then ("Usage: rmdir <directory_name>", fs)
  else
    let st := args.foldl (fun (st : List String × FS) dir_name =>
      let dir_path := if pyIsAbs dir_name then dir_name
                      else pyJoin s.current_directory dir_name
      match st.2 dir_path with
      | .absent => (st.1 ++ ["Directory not found: " ++ dir_name], st.2)
      | _ =>
        match w.rmdirErr dir_path with
        | some e => (st.1 ++ ["Error removing " ++ dir_name ++ ": " ++ e], st.2)
        | none => (st.1 ++ ["Removed directory: " ++ dir_name], fsRemoveFile st.2 dir_path))
      ([], fs)
    (strJoinNL st.1, st.2)

/-- Operand resolution of `cmd_rm` (no normalisation, plain join). -/
def rmResolve (s : Session) (file_name : String) : String :=
  if pyIsAbs file_name then file_name else pyJoin s.current_directory file_name

/-- Flag scan `recursive = '-r' in args or '-rf' in args or '--recursive' in args`. -/
def rmRecursiveFlag (args : List String) : Bool :=
  args.contains "-r" || args.contains "-rf" || args.contains "--recursive"

/-- Flag scan `force = '-f' in args or '-rf' in args or '--force' in args`. -/
def rmForceFlag (args : List String) : Bool :=
  args.contains "-f" || args.contains "-rf" || args.contains "--force"

/-- Operand filter `files = [arg for arg in args if not arg.startswith('-')]`. -/
def rmFiles (args : List String) : List String :=
  args.filter (fun a => !strStartsWith a "-")

/-- One iteration of the removal loop of `cmd_rm` (`file_path` of the
source is `rmResolve s file_name`). -/
def rmStep (w : World) (s : Session) (recursive force : Bool)
    (st : List String × FS) (file_name : String) : List String × FS :=
  match st.2 (rmResolve s file_name) with
  | .dir =>
    if recursive then
      (st.1 ++ ["Removed directory tree: " ++ file_name],
       fsRemoveTree st.2 (rmResolve s file_name))
    else
      (st.1 ++ ["Cannot remove directory " ++ file_name ++ ": use -r flag"], st.2)
  | .file =>
    if w.permDenied (rmResolve s file_name) then
      (st.1 ++ ["Permission denied: " ++ file_name], st.2)
    else
      (st.1 ++ ["Removed file: " ++ file_name],
       fsRemoveFile st.2 (rmResolve s file_name))
  | .absent =>
    if force then st
    else (st.1 ++ ["File not found: " ++ file_name], st.2)

def cmd_rm : Handler := fsHandler fun w s args fs =>
  if args.isEmpty then ("Usage: rm [-r] <file_or_directory>", fs)
  else
    let recursive := rmRecursiveFlag args
    let force := rmForceFlag args
    let files := rmFiles args
    if files.isEmpty then ("No files specified", fs)
    else
      let st := files.foldl (rmStep w s recursive force) ([], fs)
      (strJoinNL st.1, st.2)

def cmd_touch : Handler := fsHandler fun _ s args fs =>
  if args.isEmpty then ("Usage: touch <filename>", fs)
  else
    let st := args.foldl (fun (st : List String × FS) filename =>
      let file_path := if pyIsAbs filename then filename
                       else pyJoin s.current_directory filename
      let fs2 := if st.2 file_path = .absent then fsSet st.2 file_path .file else st.2
      (st.1 ++ ["Touched: " ++ filename], fs2)) ([], fs)
    (strJoinNL st.1, st.2)

def cmd_cat : Handler := pureHandler fun w _ s args =>
  if args.isEmpty then "Usage: cat <filename>"
  else
    let results := args.foldl (fun (acc : List String) filename =>
      let file_path := if pyIsAbs filename then filename
                       else pyJoin s.current_directory filename
      match w.readFile file_path with
      | .ok content =>
        if args.length > 1 then acc ++ ["==> " ++ filename ++ " <==", content]
        else acc ++ [content]
      | .error .notFound => acc ++ ["File not found: " ++ filename]
      | .error (.permission _) => acc ++ ["Permission denied: " ++ filename]
      | .error (.binary _) => acc ++ ["Cannot display binary file: " ++ filename]
      | .error (.other e) => acc ++ ["Error reading " ++ filename ++ ": " ++ e]) []
    strJoinNL results

def cmd_echo : Handler := pureHandler fun _ _ _ args => strIntercalate " " args

def cmd_cp : Handler := fsHandler fun _ s args fs =>
  if args.length < 2 then ("Usage: cp [-r] <source> <destination>", fs)
  else
    let recursive := args.contains "-r" || args.contains "--recursive"
    let files := args.filter (fun a => !strStartsWith a "-")
    if files.length < 2 then ("Source and destination required", fs)
    else
      let src0 := files.getD 0 ""
      let dst0 := files.getD 1 ""
      let source := if pyIsAbs src0 then src0 else pyJoin s.current_directory src0
      let dest := if pyIsAbs dst0 then dst0 else pyJoin s.current_directory dst0
      match fs source with
      | .dir =>
        if recursive then
          ("Copied directory tree: " ++ src0 ++ " -> " ++ dst0, fsCopyTree fs source dest)
        else ("Cannot copy directory " ++ src0 ++ ": use -r flag", fs)
      | .file => ("Copied file: " ++ src0 ++ " -> " ++ dst0, fsSet fs dest .file)
      | .absent => ("Source not found: " ++ src0, fs)

def cmd_mv : Handler := fsHandler fun _ s args fs =>
  match args with
  | [src0, dst0] =>
    let source := if pyIsAbs src0 then src0 else pyJoin s.current_directory src0
    let dest := if pyIsAbs dst0 then dst0 else pyJoin s.current_directory dst0
    match fs source with
    | .absent => ("Source not found: " ++ src0, fs)
    | .file => ("Moved: " ++ src0 ++ " -> " ++ dst0,
                fsSet (fsRemoveFile fs source) dest .file)
    | .dir => ("Moved: " ++ src0 ++ " -> " ++ dst0,
               fsRemoveTree (fsCopyTree fs source dest) source)
  | _ => ("Usage: mv <source> <destination>", fs)

def cmd_find : Handler := pureHandler fun w _ s args =>
  if args.isEmpty then "Usage: find <path> -name <pattern>"
  else
    let path0 := args.headD s.current_directory
    let pat : Option String :=
      if args.contains "-name" then
        match args.dropWhile (· ≠ "-name") with
        | _ :: p :: _ => some p
        | _ => none
      else none
    let path := if pyIsAbs path0 then path0 else pyJoin s.current_directory path0
    let results := (w.walk path).foldl (fun (acc : List String) wt =>
      acc ++ ((wt.2.1 ++ wt.2.2).filterMap (fun item =>
        let full_path := pyJoin wt.1 item
        match pat with
        | some p => if w.fnmatch item p then some full_path else none
        | none => some full_path))) []
    if results.isEmpty then "No matches found" else strJoinNL results

def cmd_grep : Handler := pureHandler fun w _ s args =>
  if args.length < 2 then "Usage: grep <pattern> <file>"
  else
    let pattern := args.getD 0 ""
    let filename := args.getD 1 ""
    let file_path := if pyIsAbs filename then filename
                     else pyJoin s.current_directory filename
    match w.readFile file_path with
    | .error .notFound => "File not found: " ++ filename
    | .error (.permission m) => "Error in grep: " ++ m
    | .error (.binary m) => "Error in grep: " ++ m
    | .error (.other m) => "Error in grep: " ++ m
    | .ok content =>
      let results := (pyFileLines content).enum.filterMap (fun ic =>
        if strContains ic.2 pattern then
          some (toString (ic.1 + 1) ++ ": " ++ strRStrip ic.2)
        else none)
      if results.isEmpty then "No matches found for \x27" ++ pattern ++ "\x27"
      else strJoinNL results

/-- Model of `cmd_ps`: a `psutil` snapshot relayed verbatim (oracle). -/
def cmd_ps : Handler := pureHandler fun w _ _ _ => w.psOut

def cmd_kill : Handler := pureHandler fun w _ _ args =>
  if args.isEmpty then "Usage: kill <pid>"
  else
    match pyParseInt (args.getD 0 "") with
    | none => "Invalid PID: must be a number"
    | some pid =>
      match w.killOutcome pid with
      | .ok => "Process " ++ toString pid ++ " terminated"
      | .noSuch => "No such process: " ++ args.getD 0 ""
      | .accessDenied => "Access denied: cannot kill process " ++ args.getD 0 ""
      | .err e => "Error killing process: " ++ e

/-- Model of `cmd_top`: a `psutil` snapshot relayed verbatim (oracle). -/
def cmd_top : Handler := pureHandler fun w _ _ _ => w.topOut

/-- Model of `cmd_df`: a `psutil` snapshot relayed verbatim (oracle). -/
def cmd_df : Handler := pureHandler fun w _ _ _ => w.dfOut

/-- Model of `cmd_free`: a `psutil` snapshot relayed verbatim (oracle). -/
def cmd_free : Handler := pureHandler fun w _ _ _ => w.freeOut

def cmd_whoami : Handler := pureHandler fun _ g _ _ =>
  pyGetenv g "USER" (pyGetenv g "USERNAME" "unknown")

/-- Model of `cmd_date`: the current clock formatted (oracle). -/
def cmd_date : Handler := pureHandler fun w _ _ _ => w.dateOut

def cmd_history : Handler := pureHandler fun _ _ s _ =>
  if s.command_history.isEmpty then "No command history"
  else
    strJoinNL (((s.command_history.drop (s.command_history.length - 50)).enum).map
      (fun ic => padNum3 (ic.1 + 1) ++ "  " ++ ic.2))

def cmd_clear : Handler := pureHandler fun _ _ _ _ => "\x1b[2J\x1b[H"

def cmd_exit : Handler := pureHandler fun _ _ _ _ => "EXIT_TERMINAL"

/-- The static help text (`cmd_help`, after `.strip()`). -/
def helpText : String :=
  "Python Terminal - Available Commands:

File Operations:
  ls, dir          - List directory contents
  cd               - Change directory
  pwd              - Print working directory
  mkdir            - Create directory
  rmdir            - Remove empty directory
  rm, del          - Remove files/directories
  touch            - Create empty file
  cat, type        - Display file contents
  cp, copy         - Copy files/directories
  mv, move         - Move/rename files/directories
  find             - Find files and directories
  grep             - Search text in files
  tree             - Display directory tree

System Monitoring:
  ps               - List processes
  kill             - Kill process by PID
  top              - Display system resource usage
  df               - Display filesystem usage
  free             - Display memory usage

Utilities:
  echo             - Echo text
  whoami           - Display current user
  date             - Display current date/time
  history          - Show command history
  clear, cls       - Clear screen
  env              - Show environment variables
  alias            - Create command aliases
  help             - Show this help

Navigation:
  exit, quit       - Exit terminal

Use -h or --help with most commands for more options."

def cmd_help : Handler := pureHandler fun _ _ _ _ => helpText

def cmd_alias : Handler := fun _ g s args =>
  match args with
  | [] =>
    if s.aliases.isEmpty then (.ok "No aliases defined", s, g)
    else
      (.ok (strJoinNL ("Defined aliases:" ::
        s.aliases.map (fun kv => "  " ++ kv.1 ++ " = " ++ kv.2))), s, g)
  | a0 :: _ =>
    if strHasChar a0 '=' then
      let parts := pySplitOnceChar '=' a0
      let al := pyStrip parts.1
      let command := pyStrip parts.2
      (.ok ("Alias created: " ++ al ++ " = " ++ command),
       { s with aliases := alistSet s.aliases al command }, g)
    else (.ok "Usage: alias name=command", s, g)

def cmd_env : Handler := pureHandler fun _ _ s _ =>
  strJoinNL ((s.environment_vars.foldr pyInsertPair []).map
    (fun kv => kv.1 ++ "=" ++ kv.2))

/-- Model of `cmd_set`: writes both the session mapping and `os.environ`. -/
def cmd_set : Handler := fun _ g s args =>
  match args with
  | [] => (.ok "Usage: set VARIABLE=value", s, g)
  | a0 :: _ =>
    if !strHasChar a0 '=' then (.ok "Usage: set VARIABLE=value", s, g)
    else
      let parts := pySplitOnceChar '=' a0
      (.ok ("Set " ++ parts.1 ++ "=" ++ parts.2),
       { s with environment_vars := alistSet s.environment_vars parts.1 parts.2 },
       { g with osEnviron := alistSet g.osEnviron parts.1 parts.2 })

/-- Model of `_build_tree`.  The source recurses with `(depth + 1)` up to a fixed
`max_depth`; here `remaining = max_depth - depth` counts down so the
recursion is structural (`remaining = 0` is the `depth >= max_depth`
guard).  `is_last` is the index test `i == len(items) - 1` against the
*full* sorted listing, dot-entries included. -/
def build_tree (w : World) (fs : FS) : String → String → Nat → List String
  | _, _, 0 => []
  | path, prfx, remaining + 1 =>
    match w.listDir path with
    | .error _ => [prfx ++ "└── [Permission Denied]"]
    | .ok items0 =>
      let items := pySorted items0
      items.enum.flatMap (fun it =>
        if strStartsWith it.2 "." then []
        else
          let item_path := pyJoin path it.2
          let is_last := it.1 = items.length - 1
          let line := prfx ++ (if is_last then "└── " else "├── ") ++ it.2
          if fs item_path = .dir then
            line :: build_tree w fs item_path
              (prfx ++ (if is_last then "    " else "│   ")) remaining
          else [line])

def cmd_tree : Handler := pureHandler fun w g s args =>
  let path0 := match args with | [] => s.current_directory | p :: _ => p
  let max_depth := 3
  let path := if pyIsAbs path0 then path0 else pyJoin s.current_directory path0
  if g.fs path = .absent then "Path not found: " ++ path
  else
    let base := pyBasename path
    strJoinNL ((if base = "" then path else base) ::
      build_tree w g.fs path "" max_depth)

/-! ## Builtin registry and command engine -/

/-- The registry `self.builtin_commands`, in source order. -/
def builtin_commands : List (String × Handler) :=
  [("cd", cmd_cd), ("pwd", cmd_pwd), ("ls", cmd_ls), ("dir", cmd_ls),
   ("mkdir", cmd_mkdir), ("rmdir", cmd_rmdir), ("rm", cmd_rm), ("del", cmd_rm),
   ("touch", cmd_touch), ("cat", cmd_cat), ("type", cmd_cat), ("echo", cmd_echo),
   ("cp", cmd_cp), ("copy", cmd_cp), ("mv", cmd_mv), ("move", cmd_mv),
   ("find", cmd_find), ("grep", cmd_grep), ("ps", cmd_ps), ("kill", cmd_kill),
   ("top", cmd_top), ("df", cmd_df), ("free", cmd_free), ("whoami", cmd_whoami),
   ("date", cmd_date), ("history", cmd_history), ("clear", cmd_clear),
   ("cls", cmd_clear), ("exit", cmd_exit), ("quit", cmd_exit), ("help", cmd_help),
   ("alias", cmd_alias), ("env", cmd_env), ("set", cmd_set), ("tree", cmd_tree)]

/-- Alias substitution of the first token: a single lookup, applied at
most once (`if command in self.aliases: command = self.aliases[command]`). -/
def resolveAlias (s : Session) (p0 : String) : String :=
  match alistLookup s.aliases p0 with
  | some v => v
  | none => p0

/-- The history update of `execute_command`: append, then keep the last
1000 entries. -/
def histPush (history : List String) (line : String) : List String :=
  let h := history ++ [line]
  if h.length > 1000 then h.drop (h.length - 1000) else h

/-- Model of `execute_external_command`: the child runs in the session directory
with a 30-second timeout; output is stdout, extended by stderr when the
latter is non-empty. -/
def execute_external_command (w : World) (command : String) (args : List String)
    (cwd : String) : String × Int :=
  match w.runExternal command args cwd 30 with
  | .completed stdout stderr returncode =>
    (if stderr ≠ "" then stdout ++ stderr else stdout, returncode)
  | .timedOut => ("Command timed out after 30 seconds", 1)
  | .notFound => ("Command not found: " ++ command, 127)
  | .failed e => ("Error executing external command: " ++ e, 1)

/-- Model of `execute_command`, parameterised by the registry dict the instance
carries (`self.builtin_commands`). -/
def execute_command_with (reg : List (String × Handler)) (w : World)
    (g : GlobalState) (s : Session) (command_line : String) :
    (String × Int) × Session × GlobalState :=
  if pyStrip command_line = "" then (("", 0), s, g)
  else
    let s := { s with command_history := histPush s.command_history command_line }
    match pyShlexSplit command_line with
    | .error e => (("Command parsing error: " ++ e, 1), s, g)
    | .ok [] => (("", 0), s, g)
    | .ok (p0 :: rest) =>
      let command := resolveAlias s p0
      match alistLookup reg command with
      | some handler =>
        match handler w g s rest with
        | (.ok out, s2, g2) => ((out, 0), s2, g2)
        | (.error e, s2, g2) =>
          (("Error executing " ++ command ++ ": " ++ e, 1), s2, g2)
      | none => (execute_external_command w command rest s.current_directory, s, g)

/-- Model of `PythonTerminal.execute_command`. -/
def execute_command (w : World) (g : GlobalState) (s : Session)
    (command_line : String) : (String × Int) × Session × GlobalState :=
  execute_command_with builtin_commands w g s command_line

/-! ## `AITerminalInterface._initialize_patterns`

Each rule is the list of regexes of one `pattern_dict` plus its command
template; the outer list keeps the categories in the declaration order
of the source dict (which Python preserves).  Every entry carries the
original pattern in a comment. -/

structure PatternRule where
  patterns : List RE
  command : String

def command_patterns : List (String × List PatternRule) :=
  [ ("create_file",
     [⟨[ -- create.*?file.*?(?:named|called)\s+(\S+)
        rcat [rlit "create", lazyDots, rlit "file", lazyDots,
              ralt [rlit "named", rlit "called"], rsp1, .group rS1],
        -- make.*?file.*?(\S+)
        rcat [rlit "make", lazyDots, rlit "file", lazyDots, .group rS1],
        -- touch.*?(\S+)
        rcat [rlit "touch", lazyDots, .group rS1],
        -- new file.*?(\S+)
        rcat [rlit "new file", lazyDots, .group rS1]],
       "touch {0}"⟩]),
    ("create_directory",
     [⟨[ -- create.*?(?:directory|folder|dir).*?(?:named|called)\s+(\S+)
        rcat [rlit "create", lazyDots, ralt [rlit "directory", rlit "folder", rlit "dir"],
              lazyDots, ralt [rlit "named", rlit "called"], rsp1, .group rS1],
        -- make.*?(?:directory|folder|dir).*?(\S+)
        rcat [rlit "make", lazyDots, ralt [rlit "directory", rlit "folder", rlit "dir"],
              lazyDots, .group rS1],
        -- mkdir.*?(\S+)
        rcat [rlit "mkdir", lazyDots, .group rS1],
        -- new (?:directory|folder).*?(\S+)
        rcat [rlit "new ", ralt [rlit "directory", rlit "folder"], lazyDots, .group rS1]],
       "mkdir {0}"⟩]),
    ("list_files",
     [⟨[ -- list.*?files?
        rcat [rlit "list", lazyDots, rlitOptS "file"],
        -- show.*?files?
        rcat [rlit "show", lazyDots, rlitOptS "file"],
        -- what.*?files?.*?here
        rcat [rlit "what", lazyDots, rlitOptS "file", lazyDots, rlit "here"],
        -- ls
        rlit "ls",
        -- dir
        rlit "dir"],
       "ls"⟩]),
    ("delete_file",
     [⟨[ -- delete.*?file.*?(\S+)
        rcat [rlit "delete", lazyDots, rlit "file", lazyDots, .group rS1],
        -- remove.*?file.*?(\S+)
        rcat [rlit "remove", lazyDots, rlit "file", lazyDots, .group rS1],
        -- rm.*?(\S+)
        rcat [rlit "rm", lazyDots, .group rS1],
        -- del.*?(\S+)
        rcat [rlit "del", lazyDots, .group rS1]],
       "rm {0}"⟩]),
    ("copy_file",
     [⟨[ -- copy.*?(\S+).*?to.*?(\S+)
        rcat [rlit "copy", lazyDots, .group rS1, lazyDots, rlit "to", lazyDots, .group rS1],
        -- cp.*?(\S+).*?(\S+)
        rcat [rlit "cp", lazyDots, .group rS1, lazyDots, .group rS1],
        -- duplicate.*?(\S+).*?as.*?(\S+)
        rcat [rlit "duplicate", lazyDots, .group rS1, lazyDots, rlit "as", lazyDots, .group rS1]],
       "cp {0} {1}"⟩]),
    ("move_file",
     [⟨[ -- move.*?(\S+).*?to.*?(\S+)
        rcat [rlit "move", lazyDots, .group rS1, lazyDots, rlit "to", lazyDots, .group rS1],
        -- mv.*?(\S+).*?(\S+)
        rcat [rlit "mv", lazyDots, .group rS1, lazyDots, .group rS1],
        -- relocate.*?(\S+).*?to.*?(\S+)
        rcat [rlit "relocate", lazyDots, .group rS1, lazyDots, rlit "to", lazyDots, .group rS1]],
       "mv {0} {1}"⟩]),
    ("change_directory",
     [⟨[ -- go.*?to.*?(?:directory|folder).*?(\S+)
        rcat [rlit "go", lazyDots, rlit "to", lazyDots,
              ralt [rlit "directory", rlit "folder"], lazyDots, .group rS1],
        -- change.*?(?:directory|folder).*?to.*?(\S+)
        rcat [rlit "change", lazyDots, ralt [rlit "directory", rlit "folder"],
              lazyDots, rlit "to", lazyDots, .group rS1],
        -- cd.*?(\S+)
        rcat [rlit "cd", lazyDots, .group rS1],
        -- navigate.*?to.*?(\S+)
        rcat [rlit "navigate", lazyDots, rlit "to", lazyDots, .group rS1]],
       "cd {0}"⟩]),
    ("show_content",
     [⟨[ -- show.*?content.*?(?:of|in).*?(\S+)
        rcat [rlit "show", lazyDots, rlit "content", lazyDots,
              ralt [rlit "of", rlit "in"], lazyDots, .group rS1],
        -- display.*?(\S+)
        rcat [rlit "display", lazyDots, .group rS1],
        -- cat.*?(\S+)
        rcat [rlit "cat", lazyDots, .group rS1],
        -- read.*?(\S+)
        rcat [rlit "read", lazyDots, .group rS1],
        -- view.*?(\S+)
        rcat [rlit "view", lazyDots, .group rS1]],
       "cat {0}"⟩]),
    ("find_files",
     [⟨[ -- find.*?files?.*?(?:named|called).*?(\S+)
        rcat [rlit "find", lazyDots, rlitOptS "file", lazyDots,
              ralt [rlit "named", rlit "called"], lazyDots, .group rS1],
        -- search.*?for.*?(\S+)
        rcat [rlit "search", lazyDots, rlit "for", lazyDots, .group rS1],
        -- locate.*?(\S+)
        rcat [rlit "locate", lazyDots, .group rS1]],
       "find . -name \"{0}\""⟩]),
    ("system_info",
     [⟨[ -- show.*?system.*?info
        rcat [rlit "show", lazyDots, rlit "system", lazyDots, rlit "info"],
        -- system.*?status
        rcat [rlit "system", lazyDots, rlit "status"],
        -- resource.*?usage
        rcat [rlit "resource", lazyDots, rlit "usage"],
        -- top
        rlit "top"],
       "top"⟩]),
    ("list_processes",
     [⟨[ -- list.*?processes?
        rcat [rlit "list", lazyDots, rlitOptS "processe"],
        -- show.*?processes?
        rcat [rlit "show", lazyDots, rlitOptS "processe"],
        -- running.*?programs?
        rcat [rlit "running", lazyDots, rlitOptS "program"],
        -- ps
        rlit "ps"],
       "ps"⟩]),
    ("current_directory",
     [⟨[ -- where.*?am.*?i
        rcat [rlit "where", lazyDots, rlit "am", lazyDots, rlit "i"],
        -- current.*?(?:directory|folder|location)
        rcat [rlit "current", lazyDots,
              ralt [rlit "directory", rlit "folder", rlit "location"]],
        -- pwd
        rlit "pwd",
        -- show.*?(?:directory|folder)
        rcat [rlit "show", lazyDots, ralt [rlit "directory", rlit "folder"]]],
       "pwd"⟩]),
    ("disk_usage",
     [⟨[ -- disk.*?usage
        rcat [rlit "disk", lazyDots, rlit "usage"],
        -- disk.*?space
        rcat [rlit "disk", lazyDots, rlit "space"],
        -- storage.*?info
        rcat [rlit "storage", lazyDots, rlit "info"],
        -- df
        rlit "df"],
       "df"⟩]),
    ("memory_usage",
     [⟨[ -- memory.*?usage
        rcat [rlit "memory", lazyDots, rlit "usage"],
        -- ram.*?usage
        rcat [rlit "ram", lazyDots, rlit "usage"],
        -- memory.*?info
        rcat [rlit "memory", lazyDots, rlit "info"],
        -- free.*?memory
        rcat [rlit "free", lazyDots, rlit "memory"],
        -- free
        rlit "free"],
       "free"⟩]),
    ("clear_screen",
     [⟨[ -- clear.*?screen
        rcat [rlit "clear", lazyDots, rlit "screen"],
        -- clear.*?terminal
        rcat [rlit "clear", lazyDots, rlit "terminal"],
        -- cls
        rlit "cls",
        -- clear
        rlit "clear"],
       "clear"⟩]),
    ("help",
     [⟨[ -- help
        rlit "help",
        -- what.*?can.*?do
        rcat [rlit "what", lazyDots, rlit "can", lazyDots, rlit "do"],
        -- available.*?commands?
        rcat [rlit "available", lazyDots, rlitOptS "command"],
        -- show.*?commands?
        rcat [rlit "show", lazyDots, rlitOptS "command"]],
       "help"⟩]),
    ("echo",
     [⟨[ -- say.*?"([^"]+)"
        rcat [rlit "say", lazyDots, rlit "\"", .group (rplus (.atom (.notChar '"'))), rlit "\""],
        -- echo.*?"([^"]+)"
        rcat [rlit "echo", lazyDots, rlit "\"", .group (rplus (.atom (.notChar '"'))), rlit "\""],
        -- print.*?"([^"]+)"
        rcat [rlit "print", lazyDots, rlit "\"", .group (rplus (.atom (.notChar '"'))), rlit "\""],
        -- display.*?"([^"]+)"
        rcat [rlit "display", lazyDots, rlit "\"", .group (rplus (.atom (.notChar '"'))), rlit "\""]],
       "echo \"{0}\""⟩]) ]

/-- First pattern of a `pattern_dict` that matches wins. -/
def firstPatternMatch (nl : String) : List RE → Option (List String)
  | [] => none
  | p :: rest =>
    match reSearch p nl with
    | some caps => some caps
    | none => firstPatternMatch nl rest

def rulesMatch (nl : String) : List PatternRule → Option String
  | [] => none
  | rule :: rest =>
    match firstPatternMatch nl rule.patterns with
    | some caps => some (pyFormat rule.command caps)
    | none => rulesMatch nl rest

/-- The pattern-table stage of `interpret_command`: categories in
declaration order, within a category the rules and their patterns in
declaration order; first match produces `template.format(*groups)`. -/
def patternTableMatch (nl : String) : List (String × List PatternRule) → Option String
  | [] => none
  | (_, rules) :: rest =>
    match rulesMatch nl rules with
    | some cmd => some cmd
    | none => patternTableMatch nl rest

/-! ## `AITerminalInterface._handle_complex_commands` -/

-- create.*?(?:folder|directory).*?(?:called|named)\s+(\S+).*?and.*?move.*?(\S+).*?(?:into|to).*?it
def complexRe1 : RE :=
  rcat [rlit "create", lazyDots, ralt [rlit "folder", rlit "directory"], lazyDots,
        ralt [rlit "called", rlit "named"], rsp1, .group rS1, lazyDots,
        rlit "and", lazyDots, rlit "move", lazyDots, .group rS1, lazyDots,
        ralt [rlit "into", rlit "to"], lazyDots, rlit "it"]

-- copy.*?all.*?(\.\w+).*?files?.*?to.*?(\S+)
def complexRe2 : RE :=
  rcat [rlit "copy", lazyDots, rlit "all", lazyDots,
        .group (.seq (.atom (.lit '.')) (rplus (.atom .word))), lazyDots,
        rlitOptS "file", lazyDots, rlit "to", lazyDots, .group rS1]

-- delete.*?all.*?files?.*?in.*?(\S+)
def complexRe3 : RE :=
  rcat [rlit "delete", lazyDots, rlit "all", lazyDots, rlitOptS "file", lazyDots,
        rlit "in", lazyDots, .group rS1]

-- find.*?and.*?delete.*?files?.*?(?:called|named).*?(\S+)
def complexRe4 : RE :=
  rcat [rlit "find", lazyDots, rlit "and", lazyDots, rlit "delete", lazyDots,
        rlitOptS "file", lazyDots, ralt [rlit "called", rlit "named"], lazyDots,
        .group rS1]

/-- The multi-step synthesizer: four compound-intent regexes tried in
order; the first that matches yields a composite command line. -/
def handle_complex_commands (nl : String) : Option String :=
  match reSearch complexRe1 nl with
  | some caps =>
    some ("mkdir " ++ caps.getD 0 "" ++ " && mv " ++ caps.getD 1 "" ++ " " ++
          caps.getD 0 "" ++ "/")
  | none =>
  match reSearch complexRe2 nl with
  | some caps => some ("cp *" ++ caps.getD 0 "" ++ " " ++ caps.getD 1 "" ++ "/")
  | none =>
  match reSearch complexRe3 nl with
  | some caps => some ("rm " ++ caps.getD 0 "" ++ "/*")
  | none =>
  match reSearch complexRe4 nl with
  | some caps => some ("find . -name \"" ++ caps.getD 0 "" ++ "\" -delete")
  | none => none

/-! ## `AITerminalInterface._interpret_by_keywords` -/

/-- Python `any(word in keywords for word in keys)`. -/
def anyIn (keys keywords : List String) : Bool :=
  keys.any (fun w => keywords.contains w)

/-- First keyword in `keys` that has a following token; returns that
following token (the `enumerate` loops of the source). -/
def findNextAfter : List String → List String → Option String
  | [], _ => none
  | w :: rest, keys =>
    if w ∈ keys ∧ rest ≠ [] then rest.head? else findNextAfter rest keys

/-- First keyword not in the stop list (the delete-heuristic loop). -/
def firstNotIn : List String → List String → Option String
  | [], _ => none
  | w :: rest, stop => if w ∈ stop then firstNotIn rest stop else some w

/-- Keyword fallback: ordered heuristics over the whitespace-split
phrase; `none` corresponds to the `return None` of the source. -/
def interpret_by_keywords (nl : String) : Option String :=
  let keywords := pySplitWS nl
  if anyIn ["create", "make", "new"] keywords && anyIn ["file"] keywords then
    match findNextAfter keywords ["file"] with
    | some w => some ("touch " ++ w)
    | none => some "touch newfile.txt"
  else if anyIn ["create", "make", "new"] keywords &&
          anyIn ["folder", "directory", "dir"] keywords then
    match findNextAfter keywords ["folder", "directory", "dir"] with
    | some w => some ("mkdir " ++ w)
    | none => some "mkdir newfolder"
  else
    -- the navigation heuristic falls through when no token follows "to"
    let nav := if anyIn ["go", "navigate", "change"] keywords &&
                  anyIn ["directory", "folder", "to"] keywords then
                 (findNextAfter keywords ["to"]).map (fun w => "cd " ++ w)
               else none
    match nav with
    | some c => some c
    | none =>
      if anyIn ["list", "show"] keywords && anyIn ["files", "contents"] keywords then
        some "ls"
      else if anyIn ["delete", "remove", "rm"] keywords then
        (firstNotIn keywords ["delete", "remove", "rm", "file", "the"]).map
          (fun w => "rm " ++ w)
      else none

/-! ## `AITerminalInterface.interpret_command` -/

/-- Convert natural language to a terminal command: multi-step
synthesizer, then pattern table, then keyword fallback, then
passthrough. -/
def interpret_command (natural_language : String) : String × String :=
  let nl_input := pyLower (pyStrip natural_language)
  match handle_complex_commands nl_input with
  | some c => (c, "AI interpreted multi-step command")
  | none =>
  match patternTableMatch nl_input command_patterns with
  | some cmd =>
    (cmd, "AI interpreted \x27" ++ natural_language ++ "\x27 as \x27" ++ cmd ++ "\x27")
  | none =>
  match interpret_by_keywords nl_input with
  | some c => (c, "AI interpreted using keywords")
  | none => (natural_language, "No AI interpretation found, executing as-is")

/-- The three translation stages that precede passthrough, combined:
`interpret_command` returns `(c, _)` for `some c`, and passes the
phrase through verbatim on `none`. -/
def staged_interpretation (nl : String) : Option String :=
  match handle_complex_commands nl with
  | some c => some c
  | none =>
    match patternTableMatch nl command_patterns with
    | some c => some c
    | none => interpret_by_keywords nl

/-! ## Concrete test fixtures (used by witnesses and counterexamples) -/

def testFS : FS := fun p =>
  if p = "/" || p = "/d" || p = "/tmp" || p = "/tmp/sub" then .dir
  else if p = "/d/!b" then .file
  else .absent

def testWorld : World :=
  { home := "/root"
    expanduser := fun t => t
    chdirDenied := fun _ => false
    listDir := fun p =>
      if p = "/d" then .ok ["!b", ".z"]
      else if p = "/denied" then .error ()
      else .ok []
    permDenied := fun _ => false
    rmdirErr := fun _ => none
    readFile := fun _ => .error .notFound
    fileInfoLong := fun _ => ""
    runExternal := fun c _ _ _ =>
      if c = "nf" || c = "ls -l" then .notFound
      else if c = "to" then .timedOut
      else .completed "A" "B" 3
    walk := fun _ => []
    fnmatch := fun _ _ => false
    psOut := "ps-snapshot"
    topOut := "top-snapshot"
    dfOut := "df-snapshot"
    freeOut := "free-snapshot"
    dateOut := "2026-01-01 00:00:00"
    killOutcome := fun _ => .ok
    dirNonEmpty := fun _ => false }

def testGlobal : GlobalState :=
  { fs := testFS, processCwd := "/", osEnviron := [("USER", "alice")] }

def testSession : Session := Session.init testGlobal

/-- A handler that raises (for exercising the failure boundary), and a
one-entry registry carrying it. -/
def faultingHandler : Handler := fun _ g s _ => (.error "boom", s, g)

def faultyReg : List (String × Handler) := [("explode", faultingHandler)]

/-! ## Theorems -/

/-- C4: for every external command run: executable not found gives
`("Command not found: <name>", 127)`; exceeding the 30-second timeout
gives `("Command timed out after 30 seconds", 1)`; a successful launch
returns the child's stdout concatenated with its stderr, in that order,
with the child's exit code. -/
theorem external_command_outcomes (w : World) (command : String)
    (args : List String) (cwd : String) :
    (w.runExternal command args cwd 30 = .notFound →
      execute_external_command w command args cwd =
        ("Command not found: " ++ command, 127)) ∧
    (w.runExternal command args cwd 30 = .timedOut →
      execute_external_command w command args cwd =
        ("Command timed out after 30 seconds", 1)) ∧
    (∀ out err code, w.runExternal command args cwd 30 = .completed out err code →
      execute_external_command w command args cwd = (out ++ err, code)) := by
  refine ⟨fun h => ?_, fun h => ?_, fun out err code h => ?_⟩ <;>
    simp only [execute_external_command, h]
  by_cases he : err = ""
  · subst he
    simp [String.append_empty]
  · simp [he]

theorem external_command_outcomes_witness :
    execute_external_command testWorld "nf" [] "/" = ("Command not found: nf", 127) ∧
    execute_external_command testWorld "to" [] "/" =
      ("Command timed out after 30 seconds", 1) ∧
    execute_external_command testWorld "ok" [] "/" = ("AB", 3) := by
  refine ⟨(external_command_outcomes testWorld "nf" [] "/").1 rfl,
          (external_command_outcomes testWorld "to" [] "/").2.1 rfl, ?_⟩
  have h := (external_command_outcomes testWorld "ok" [] "/").2.2 "A" "B" 3 rfl
  simpa using h

/-! ### History invariant (C1) -/

theorem alistLookup_some_mem {α : Type} {l : List (String × α)} {k : String} {v : α}
    (h : alistLookup l k = some v) : (k, v) ∈ l := by
  induction l with
  | nil => simp [alistLookup] at h
  | cons p rest ih =>
    obtain ⟨k0, v0⟩ := p
    simp only [alistLookup] at h
    split at h
    · rename_i heq
      injection h with h2
      subst h2
      subst heq
      exact List.mem_cons_self _ _
    · exact List.mem_cons_of_mem _ (ih h)

theorem cmd_cd_session_history (w : World) (g : GlobalState) (s : Session)
    (args : List String) :
    ((cmd_cd w g s args).2.1).command_history = s.command_history := by
  simp only [cmd_cd]
  split
  · split <;> rfl
  · rfl

theorem cmd_alias_session_history (w : World) (g : GlobalState) (s : Session)
    (args : List String) :
    ((cmd_alias w g s args).2.1).command_history = s.command_history := by
  cases args with
  | nil =>
    simp only [cmd_alias]
    split <;> rfl
  | cons a rest =>
    simp only [cmd_alias]
    split <;> rfl

theorem cmd_set_session_history (w : World) (g : GlobalState) (s : Session)
    (args : List String) :
    ((cmd_set w g s args).2.1).command_history = s.command_history := by
  cases args with
  | nil => rfl
  | cons a rest =>
    simp only [cmd_set]
    split <;> rfl

/-- No registered builtin handler touches `command_history`. -/
theorem builtin_preserves_history {name : String} {h : Handler}
    (hl : alistLookup builtin_commands name = some h)
    (w : World) (g : GlobalState) (s : Session) (args : List String) :
    ((h w g s args).2.1).command_history = s.command_history := by
  have hm := alistLookup_some_mem hl
  simp only [builtin_commands, List.mem_cons, List.not_mem_nil, or_false] at hm
  rcases hm with hm|hm|hm|hm|hm|hm|hm|hm|hm|hm|hm|hm|hm|hm|hm|hm|hm|hm|hm|hm|hm|hm|
    hm|hm|hm|hm|hm|hm|hm|hm|hm|hm|hm|hm|hm <;>
    (obtain ⟨-, rfl⟩ := Prod.mk.inj hm
     first
       | rfl
       | exact cmd_cd_session_history w g s args
       | exact cmd_alias_session_history w g s args
       | exact cmd_set_session_history w g s args)

theorem histPush_eq_drop (h : List String) (line : String) :
    histPush h line = h.drop (h.length + 1 - 1000) ++ [line] := by
  unfold histPush
  by_cases hc : (h ++ [line]).length > 1000
  · rw [if_pos hc]
    have hlen : (h ++ [line]).length = h.length + 1 := by simp
    rw [hlen] at hc ⊢
    rw [List.drop_append_of_le_length (by omega)]
  · rw [if_neg hc]
    have hlen : (h ++ [line]).length = h.length + 1 := by simp
    rw [hlen] at hc
    have h0 : h.length + 1 - 1000 = 0 := by omega
    rw [h0, List.drop_zero]

/-- C1: executing a non-empty line appends that exact line to the
history no matter how the command turns out (parse errors, builtin
faults, external commands included); eviction is oldest-first with the
append, the line ends up last, and a history of at most 1000 entries
stays at most 1000. -/
theorem execute_history_spec (w : World) (g : GlobalState) (s : Session)
    (line : String) (hne : pyStrip line ≠ "") :
    ((execute_command w g s line).2.1).command_history =
        s.command_history.drop (s.command_history.length + 1 - 1000) ++ [line] ∧
    ((execute_command w g s line).2.1).command_history.getLast? = some line ∧
    (s.command_history.length ≤ 1000 →
      ((execute_command w g s line).2.1).command_history.length ≤ 1000) := by
  have hmain : ((execute_command w g s line).2.1).command_history
      = histPush s.command_history line := by
    unfold execute_command execute_command_with
    rw [if_neg hne]
    cases hp : pyShlexSplit line with
    | error e => rfl
    | ok parts =>
      cases parts with
      | nil => rfl
      | cons p0 rest =>
        dsimp only
        cases hl : alistLookup builtin_commands
            (resolveAlias { s with command_history := histPush s.command_history line } p0) with
        | none => rfl
        | some handler =>
          have hpres := builtin_preserves_history hl w g
            { s with command_history := histPush s.command_history line } rest
          rcases hres : handler w g
              { s with command_history := histPush s.command_history line } rest
            with ⟨r, s2, g2⟩
          rw [hres] at hpres
          dsimp only
          rw [hres]
          cases r <;> simpa using hpres
  refine ⟨by rw [hmain, histPush_eq_drop], ?_, ?_⟩
  · rw [hmain, histPush_eq_drop]
    simp
  · intro hlen
    rw [hmain, histPush_eq_drop]
    simp only [List.length_append, List.length_drop, List.length_cons,
      List.length_nil]
    omega

theorem execute_history_spec_witness :
    ((execute_command testWorld testGlobal testSession "zqcmd").2.1).command_history
      = ["zqcmd"] := by
  have h := (execute_history_spec testWorld testGlobal testSession "zqcmd" (by decide)).1
  simpa using h

/-- C5: `cd` to a target that is not an existing directory leaves
the session (in particular its working directory) unchanged and returns
the "Directory not found" message. -/
theorem cd_nonexistent_no_mutation (w : World) (g : GlobalState) (s : Session)
    (t : String) (rest : List String)
    (h : g.fs (cdTarget w g s (t :: rest)) ≠ .dir) :
    cmd_cd w g s (t :: rest) =
      (.ok ("Directory not found: " ++ cdTarget w g s (t :: rest)), s, g) := by
  simp only [cmd_cd]
  rw [if_neg h]

theorem cd_nonexistent_no_mutation_witness :
    cmd_cd testWorld testGlobal testSession ["/nope"] =
      (.ok "Directory not found: /nope", testSession, testGlobal) := by
  have h := cd_nonexistent_no_mutation testWorld testGlobal testSession "/nope" []
    (by decide)
  simpa using h

/-! ### Failure boundary of the engine (C3) -/

/-- C3: when the (alias-resolved) first token of a line names a
registry entry, the engine invokes its handler inside a failure
boundary: a fault becomes `("Error executing <name>: <detail>", 1)` and
does not propagate, while a normal return is passed through with exit
code 0 — even when the returned text is itself an error message.  The
registry is the dict the instance carries, so the statement is over an
arbitrary registry value. -/
theorem builtin_failure_boundary (reg : List (String × Handler)) (w : World)
    (g : GlobalState) (s : Session) (line p0 : String) (rest : List String)
    (handler : Handler)
    (hne : pyStrip line ≠ "")
    (hparse : pyShlexSplit line = .ok (p0 :: rest))
    (hlook : alistLookup reg
      (resolveAlias { s with command_history := histPush s.command_history line } p0)
      = some handler) :
    (∀ e s2 g2,
      handler w g { s with command_history := histPush s.command_history line } rest
        = (.error e, s2, g2) →
      execute_command_with reg w g s line =
        (("Error executing " ++
            resolveAlias { s with command_history := histPush s.command_history line } p0
            ++ ": " ++ e, 1), s2, g2)) ∧
    (∀ out s2 g2,
      handler w g { s with command_history := histPush s.command_history line } rest
        = (.ok out, s2, g2) →
      execute_command_with reg w g s line = ((out, 0), s2, g2)) := by
  constructor <;>
    (intro a s2 g2 hres
     unfold execute_command_with
     rw [if_neg hne, hparse]
     dsimp only
     rw [hlook]
     dsimp only
     rw [hres])

theorem builtin_failure_boundary_witness :
    execute_command_with faultyReg testWorld testGlobal testSession "explode" =
      (("Error executing explode: boom", 1),
       { testSession with command_history := ["explode"] }, testGlobal) ∧
    execute_command testWorld testGlobal testSession "ls /nope" =
      (("Path not found: /nope", 0),
       { testSession with command_history := ["ls /nope"] }, testGlobal) := by
  constructor
  · have h := (builtin_failure_boundary faultyReg testWorld testGlobal testSession
      "explode" "explode" [] faultingHandler (by decide) (by rfl) (by rfl)).1
      "boom" { testSession with command_history := ["explode"] } testGlobal (by rfl)
    simpa using h
  · have h := (builtin_failure_boundary builtin_commands testWorld testGlobal testSession
      "ls /nope" "ls" ["/nope"] cmd_ls (by decide) (by rfl) (by rfl)).2
      "Path not found: /nope" { testSession with command_history := ["ls /nope"] }
      testGlobal (by rfl)
    simpa using h

/-! ### Multi-word alias values go to the external executor (C9) -/

theorem builtin_names_have_no_space :
    ∀ n ∈ builtin_commands.map Prod.fst, strHasChar n ' ' = false := by decide

theorem no_builtin_with_space {name : String} (hsp : strHasChar name ' ' = true) :
    alistLookup builtin_commands name = none := by
  cases hcase : alistLookup builtin_commands name with
  | none => rfl
  | some v =>
    exfalso
    have hm := alistLookup_some_mem hcase
    have hmem : name ∈ builtin_commands.map Prod.fst :=
      List.mem_map_of_mem Prod.fst hm
    have hno := builtin_names_have_no_space name hmem
    rw [hsp] at hno
    cases hno

/-- C9: alias resolution replaces the first token with the alias
value as one opaque command name; a value containing a space can never
match a registry key (none contains one), so the whole multi-word value
is handed to the external executor as the executable name, with the
original remaining tokens as its arguments. -/
theorem alias_multiword_external_dispatch (w : World) (g : GlobalState) (s : Session)
    (line p0 value : String) (rest : List String)
    (hne : pyStrip line ≠ "")
    (hparse : pyShlexSplit line = .ok (p0 :: rest))
    (halias : alistLookup s.aliases p0 = some value)
    (hsp : strHasChar value ' ' = true) :
    alistLookup builtin_commands value = none ∧
    execute_command w g s line =
      (execute_external_command w value rest s.current_directory,
       { s with command_history := histPush s.command_history line }, g) := by
  have hres : resolveAlias
      { s with command_history := histPush s.command_history line } p0 = value := by
    simp [resolveAlias, halias]
  refine ⟨no_builtin_with_space hsp, ?_⟩
  unfold execute_command execute_command_with
  rw [if_neg hne, hparse]
  dsimp only
  rw [hres, no_builtin_with_space hsp]

theorem alias_multiword_external_dispatch_witness :
    execute_command testWorld testGlobal
      { testSession with aliases := [("ll", "ls -l")] } "ll" =
      (("Command not found: ls -l", 127),
       { testSession with aliases := [("ll", "ls -l")], command_history := ["ll"] },
       testGlobal) := by
  have h := (alias_multiword_external_dispatch testWorld testGlobal
    { testSession with aliases := [("ll", "ls -l")] } "ll" "ll" "ls -l" []
    (by decide) (by rfl) (by rfl) (by decide)).2
  simpa using h

/-! ### `rm` refuses directories without a recursive flag (C7) -/

theorem rmStep_preserves_dir (w : World) (s : Session) (force : Bool)
    (st : List String × FS) (f0 p : String) (hp : st.2 p = .dir) :
    (rmStep w s false force st f0).2 p = .dir := by
  unfold rmStep
  cases hk : st.2 (rmResolve s f0) with
  | dir => simpa using hp
  | file =>
    dsimp only
    split
    · exact hp
    · unfold fsRemoveFile
      dsimp only
      split
      · rename_i hpq
        rw [hpq, hk] at hp
        simp at hp
      · exact hp
  | absent =>
    dsimp only
    split
    · exact hp
    · exact hp

theorem rmLoop_preserves_dir (w : World) (s : Session) (force : Bool)
    (files : List String) (p : String) :
    ∀ st : List String × FS, st.2 p = .dir →
    (files.foldl (rmStep w s false force) st).2 p = .dir := by
  induction files with
  | nil => intro st h; exact h
  | cons f0 fs ih =>
    intro st h
    simp only [List.foldl_cons]
    exact ih _ (rmStep_preserves_dir w s force st f0 p h)

theorem rmStep_msgs_extend (w : World) (s : Session) (rec force : Bool)
    (st : List String × FS) (f0 : String) :
    ∃ t, (rmStep w s rec force st f0).1 = st.1 ++ t := by
  unfold rmStep
  cases st.2 (rmResolve s f0) <;> dsimp only <;> split <;>
    first
      | exact ⟨_, rfl⟩
      | exact ⟨[], (List.append_nil _).symm⟩

theorem rmLoop_msgs_mono (w : World) (s : Session) (rec force : Bool)
    (files : List String) (a : String) :
    ∀ st : List String × FS, a ∈ st.1 →
    a ∈ (files.foldl (rmStep w s rec force) st).1 := by
  induction files with
  | nil => intro st h; exact h
  | cons f0 fs ih =>
    intro st h
    simp only [List.foldl_cons]
    obtain ⟨t, ht⟩ := rmStep_msgs_extend w s rec force st f0
    exact ih _ (by rw [ht]; exact List.mem_append_left _ h)

theorem rmLoop_refusal (w : World) (s : Session) (force : Bool) (f : String) :
    ∀ (files : List String) (st : List String × FS), f ∈ files →
    st.2 (rmResolve s f) = .dir →
    ("Cannot remove directory " ++ f ++ ": use -r flag")
      ∈ (files.foldl (rmStep w s false force) st).1 := by
  intro files
  induction files with
  | nil => intro st hf _; cases hf
  | cons f0 fs ih =>
    intro st hf hdir
    simp only [List.foldl_cons]
    rcases List.mem_cons.mp hf with rfl | hmem
    · have hstep : (rmStep w s false force st f).1 =
          st.1 ++ ["Cannot remove directory " ++ f ++ ": use -r flag"] := by
        unfold rmStep
        rw [hdir]
        simp
      apply rmLoop_msgs_mono
      rw [hstep]
      exact List.mem_append_right _ (List.mem_singleton.mpr rfl)
    · exact ih _ hmem (rmStep_preserves_dir w s force st f0 (rmResolve s f) hdir)

/-- C7: whenever the argument list of `rm` carries none of the
recursive flags (`-r`, `-rf`, `--recursive`) — in any position — and an
operand resolves to an existing directory, the refusal message for that
operand is produced and the directory is still a directory afterwards;
the session itself is untouched. -/
theorem rm_refuses_directory_without_recursive (w : World) (g : GlobalState)
    (s : Session) (args : List String) (f : String)
    (hrec : rmRecursiveFlag args = false)
    (hmem : f ∈ rmFiles args)
    (hdir : g.fs (rmResolve s f) = .dir) :
    ("Cannot remove directory " ++ f ++ ": use -r flag")
      ∈ ((rmFiles args).foldl (rmStep w s false (rmForceFlag args)) ([], g.fs)).1 ∧
    (cmd_rm w g s args).1 =
      .ok (strJoinNL (((rmFiles args).foldl
        (rmStep w s false (rmForceFlag args)) ([], g.fs)).1)) ∧
    (cmd_rm w g s args).2.1 = s ∧
    ((cmd_rm w g s args).2.2).fs (rmResolve s f) = .dir := by
  have hargs : args.isEmpty = false := by
    cases args with
    | nil => simp [rmFiles] at hmem
    | cons a rest => rfl
  have hfiles : (rmFiles args).isEmpty = false := by
    cases hcase : rmFiles args with
    | nil => rw [hcase] at hmem; cases hmem
    | cons a rest => rfl
  refine ⟨rmLoop_refusal w s (rmForceFlag args) f (rmFiles args) ([], g.fs) hmem hdir,
    ?_, rfl, ?_⟩
  · simp only [cmd_rm, fsHandler, hargs, hrec, hfiles, Bool.false_eq_true, if_false]
  · simp only [cmd_rm, fsHandler, hargs, hrec, hfiles, Bool.false_eq_true, if_false]
    exact rmLoop_preserves_dir w s (rmForceFlag args) (rmFiles args)
      (rmResolve s f) ([], g.fs) hdir

theorem rm_refuses_directory_without_recursive_witness :
    (cmd_rm testWorld testGlobal testSession ["-f", "/d"]).1 =
      .ok "Cannot remove directory /d: use -r flag" ∧
    ((cmd_rm testWorld testGlobal testSession ["-f", "/d"]).2.2).fs "/d" =
      PathKind.dir := by
  have h := rm_refuses_directory_without_recursive testWorld testGlobal testSession
    ["-f", "/d"] "/d" (by decide) (by decide) (by decide)
  exact ⟨by simpa using h.2.1, by simpa using h.2.2.2⟩

/-! ### Translator stage ordering (C2) and lower-casing (C10) -/

/-- C2: `interpret_command` evaluates its stages in the fixed order
Multi-step Synthesizer → Pattern Table → Keyword Fallback → passthrough
(the table itself lists categories and patterns in declaration order),
and the first stage that succeeds determines the result — in
particular, whenever the synthesizer matches, its composite command is
returned no matter what the pattern table would say. -/
theorem interpret_priority_order (phrase : String) :
    (∀ c, handle_complex_commands (pyLower (pyStrip phrase)) = some c →
      interpret_command phrase = (c, "AI interpreted multi-step command")) ∧
    (handle_complex_commands (pyLower (pyStrip phrase)) = none →
      ∀ c, patternTableMatch (pyLower (pyStrip phrase)) command_patterns = some c →
      interpret_command phrase =
        (c, "AI interpreted \x27" ++ phrase ++ "\x27 as \x27" ++ c ++ "\x27")) ∧
    (handle_complex_commands (pyLower (pyStrip phrase)) = none →
      patternTableMatch (pyLower (pyStrip phrase)) command_patterns = none →
      ∀ c, interpret_by_keywords (pyLower (pyStrip phrase)) = some c →
      interpret_command phrase = (c, "AI interpreted using keywords")) ∧
    (handle_complex_commands (pyLower (pyStrip phrase)) = none →
      patternTableMatch (pyLower (pyStrip phrase)) command_patterns = none →
      interpret_by_keywords (pyLower (pyStrip phrase)) = none →
      interpret_command phrase =
        (phrase, "No AI interpretation found, executing as-is")) := by
  refine ⟨?_, ?_, ?_, ?_⟩
  · intro c h1
    simp only [interpret_command]
    rw [h1]
  · intro h1 c h2
    simp only [interpret_command]
    rw [h1]
    dsimp only
    rw [h2]
  · intro h1 h2 c h3
    simp only [interpret_command]
    rw [h1]
    dsimp only
    rw [h2]
    dsimp only
    rw [h3]
  · intro h1 h2 h3
    simp only [interpret_command]
    rw [h1]
    dsimp only
    rw [h2]
    dsimp only
    rw [h3]

theorem interpret_priority_order_witness :
    interpret_command "create folder called d and move f into it" =
      ("mkdir d && mv f d/", "AI interpreted multi-step command") ∧
    (patternTableMatch
      (pyLower (pyStrip "create folder called d and move f into it"))
      command_patterns).isSome = true := by
  refine ⟨(interpret_priority_order "create folder called d and move f into it").1
    "mkdir d && mv f d/" (by rfl), by rfl⟩

/-- C10: the whole phrase is lower-cased (and trimmed) before any
matching, so every command line produced by the synthesizer, the
pattern table or the keyword fallback is a function of the lower-cased
phrase — operands captured into it are lower-cased, as the closed
`Test.TXT` instance exhibits — whereas the passthrough outcome returns
the original phrase with its casing intact. -/
theorem interpret_lowercases_operands :
    (∀ phrase : String,
      (∀ c, staged_interpretation (pyLower (pyStrip phrase)) = some c →
        (interpret_command phrase).1 = c) ∧
      (staged_interpretation (pyLower (pyStrip phrase)) = none →
        interpret_command phrase =
          (phrase, "No AI interpretation found, executing as-is"))) ∧
    (interpret_command "create a file named Test.TXT").1 = "touch test.txt" := by
  constructor
  · intro phrase
    constructor
    · intro c hc
      unfold staged_interpretation at hc
      simp only [interpret_command]
      revert hc
      cases handle_complex_commands (pyLower (pyStrip phrase)) with
      | some c0 => intro hc; simpa using hc
      | none =>
        cases patternTableMatch (pyLower (pyStrip phrase)) command_patterns with
        | some c0 => intro hc; simpa using hc
        | none =>
          cases interpret_by_keywords (pyLower (pyStrip phrase)) with
          | some c0 => intro hc; simpa using hc
          | none => intro hc; simp at hc
    · intro hn
      unfold staged_interpretation at hn
      simp only [interpret_command]
      revert hn
      cases handle_complex_commands (pyLower (pyStrip phrase)) with
      | some c0 => intro hn; simp at hn
      | none =>
        cases patternTableMatch (pyLower (pyStrip phrase)) command_patterns with
        | some c0 => intro hn; simp at hn
        | none =>
          cases interpret_by_keywords (pyLower (pyStrip phrase)) with
          | some c0 => intro hn; simp at hn
          | none => intro hn; rfl
  · rfl

theorem interpret_lowercases_operands_witness :
    interpret_command "Zq Vw" =
      ("Zq Vw", "No AI interpretation found, executing as-is") :=
  (interpret_lowercases_operands.1 "Zq Vw").2 (by rfl)

/-! ### `cd` and process-global state (C6) -/

/-- **C6 (counterexample)**: a successful `cd` is *not* confined to the
invoking session: `os.chdir` moves the process-wide working directory,
and a terminal constructed afterwards (`PythonTerminal.__init__` reads
`os.getcwd()`) observes it — so one session's `cd` is observable by
another session, refuting the claim at this concrete input. -/
theorem cd_mutates_process_state_cex :
    (cmd_cd testWorld testGlobal testSession ["/d"]).1 =
      .ok "Changed directory to: /d" ∧
    testGlobal.processCwd = "/" ∧
    ((cmd_cd testWorld testGlobal testSession ["/d"]).2.2).processCwd = "/d" ∧
    (Session.init ((cmd_cd testWorld testGlobal testSession ["/d"]).2.2)).current_directory
      ≠ (Session.init testGlobal).current_directory := by
  exact ⟨rfl, rfl, rfl, by decide⟩

/-- **C6 (amended)**: a successful `cd` updates exactly the invoking
session's working directory and the process-wide working directory
(`os.chdir`); the session's history, aliases and environment, the
filesystem and `os.environ` are untouched (and no other session's
fields change, sessions being separate values) — but the process-wide
change is visible outside the session. -/
theorem cd_success_frame (w : World) (g : GlobalState) (s : Session)
    (args : List String)
    (hdir : g.fs (cdTarget w g s args) = .dir)
    (hch : w.chdirDenied (cdTarget w g s args) = false) :
    cmd_cd w g s args =
      (.ok ("Changed directory to: " ++ cdTarget w g s args),
       { s with current_directory := cdTarget w g s args },
       { g with processCwd := cdTarget w g s args }) := by
  simp only [cmd_cd]
  rw [if_pos hdir, hch]
  simp

theorem cd_success_frame_witness :
    cmd_cd testWorld testGlobal testSession ["/tmp/sub"] =
      (.ok "Changed directory to: /tmp/sub",
       { testSession with current_directory := "/tmp/sub" },
       { testGlobal with processCwd := "/tmp/sub" }) := by
  have h := cd_success_frame testWorld testGlobal testSession ["/tmp/sub"]
    (by decide) (by decide)
  simpa using h

/-! ### `tree` rendering (C8)

`_build_tree` computes `is_last` as `i == len(items) - 1` against the
full sorted listing *including* the dot-entries it then skips.  Names
beginning with characters below `.` (e.g. `!`) sort before dot-entries,
so a directory whose listing is `["!b", ".z"]` renders its only (hence
last) sibling with the `"├── "` connector and no `"└── "` at all. -/

/-- **C8 (counterexample)**: in a directory listing `["!b", ".z"]` the
dot-entry sorts last, so the last *rendered* sibling `!b` is drawn with
`"├── "` and no sibling line carries `"└── "`, refuting the claim that
the last rendered sibling always gets the distinct connector. -/
theorem tree_last_rendered_connector_cex :
    testWorld.listDir "/d" = .ok ["!b", ".z"] ∧
    (cmd_tree testWorld testGlobal testSession ["/d"]).1 = .ok "d\n├── !b" ∧
    ((pySplitChar '\n' "d\n├── !b").filter (fun ln => strStartsWith ln "└── ")) = [] ∧
    strStartsWith "├── !b" "├── " = true := by
  exact ⟨rfl, rfl, by decide, by decide⟩

/-- Every line `_build_tree` emits carries the prefix it was called
with. -/
theorem build_tree_line_prefixed (w : World) (fs : FS) :
    ∀ (n : Nat) (path prfx line : String),
      line ∈ build_tree w fs path prfx n → ∃ r, line.data = prfx.data ++ r := by
  intro n
  induction n with
  | zero =>
    intro path prfx line h
    simp [build_tree] at h
  | succ m ih =>
    intro path prfx line h
    unfold build_tree at h
    revert h
    cases w.listDir path with
    | error e =>
      intro h
      simp only [List.mem_singleton] at h
      exact ⟨_, by rw [h]; exact String.data_append _ _⟩
    | ok items0 =>
      intro h
      rw [List.mem_flatMap] at h
      obtain ⟨⟨i, item⟩, hmem, hline⟩ := h
      dsimp only at hline
      by_cases hdot : strStartsWith item "." = true
      · rw [if_pos hdot] at hline
        cases hline
      · rw [if_neg hdot] at hline
        revert hline
        split
        · intro hline
          rcases List.mem_cons.mp hline with rfl | hrec
          · exact ⟨(if i = (pySorted items0).length - 1 then ("└── " : String)
                else "├── ").data ++ item.data, by
              simp only [String.data_append, List.append_assoc]⟩
          · obtain ⟨r, hr⟩ := ih _ _ _ hrec
            rw [String.data_append, List.append_assoc] at hr
            exact ⟨_, hr⟩
        · intro hline
          rw [List.mem_singleton] at hline
          exact ⟨(if i = (pySorted items0).length - 1 then ("└── " : String)
              else "├── ").data ++ item.data, by
            rw [hline]
            simp only [String.data_append, List.append_assoc]⟩

/-- Shape of the lines of one `_build_tree` level: either a sibling
line of a non-dot entry, with the connector chosen by its index in the
full sorted listing, or a line of a sub-tree, which continues with
`'│'` or `' '` after the prefix. -/
theorem build_tree_level_structure (w : World) (fs : FS) (path prfx : String)
    (m : Nat) (items0 : List String) (hls : w.listDir path = .ok items0) :
    ∀ line ∈ build_tree w fs path prfx (m + 1),
      (∃ i item, (pySorted items0)[i]? = some item ∧
        strStartsWith item "." = false ∧
        line = prfx ++ (if i = (pySorted items0).length - 1
                        then "└── " else "├── ") ++ item) ∨
      (∃ r, line.data = prfx.data ++ ('│' :: r) ∨
            line.data = prfx.data ++ (' ' :: r)) := by
  intro line h
  unfold build_tree at h
  rw [hls] at h
  rw [List.mem_flatMap] at h
  obtain ⟨⟨i, item⟩, hmem, hline⟩ := h
  have hget : (pySorted items0)[i]? = some item :=
    List.mk_mem_enum_iff_getElem?.mp hmem
  dsimp only at hline
  by_cases hdot : strStartsWith item "." = true
  · rw [if_pos hdot] at hline
    cases hline
  · rw [if_neg hdot] at hline
    revert hline
    split
    · intro hline
      rcases List.mem_cons.mp hline with rfl | hrec
      · exact Or.inl ⟨i, item, hget, by simpa using hdot, rfl⟩
      · obtain ⟨r, hr⟩ := build_tree_line_prefixed w fs _ _ _ _ hrec
        rw [String.data_append, List.append_assoc] at hr
        by_cases hlast : i = (pySorted items0).length - 1
        · rw [if_pos hlast] at hr
          refine Or.inr ⟨' ' :: ' ' :: ' ' :: r, Or.inr ?_⟩
          rw [hr]
          rfl
        · rw [if_neg hlast] at hr
          refine Or.inr ⟨' ' :: ' ' :: ' ' :: r, Or.inl ?_⟩
          rw [hr]
          rfl
    · intro hline
      rw [List.mem_singleton] at hline
      exact Or.inl ⟨i, item, hget, by simpa using hdot, hline⟩

/-- **C8 (amended)**: dot-entries are skipped and recursion renders
nothing at the depth bound (`cmd_tree` starts three levels); a
permission-denied directory is marked inline, so the parent's walk
continues; and the connector of a rendered sibling is `"└── "` exactly
when the entry occupies the last index of the *full* sorted raw listing
(dot-entries included) — when a dot-entry sorts last, no rendered
sibling of that directory carries `"└── "`. -/
theorem tree_amended_spec (w : World) (fs : FS) (path prfx : String) :
    (build_tree w fs path prfx 0 = []) ∧
    (∀ n, w.listDir path = .error () →
      build_tree w fs path prfx (n + 1) = [prfx ++ "└── [Permission Denied]"]) ∧
    (∀ n items i item, w.listDir path = .ok items →
      (pySorted items)[i]? = some item →
      strStartsWith item "." = false →
      (prfx ++ (if i = (pySorted items).length - 1 then "└── " else "├── ") ++ item)
        ∈ build_tree w fs path prfx (n + 1)) ∧
    (∀ n items item, w.listDir path = .ok items →
      item ∈ items → strStartsWith item "." = true →
      (prfx ++ "└── " ++ item) ∉ build_tree w fs path prfx (n + 1) ∧
      (prfx ++ "├── " ++ item) ∉ build_tree w fs path prfx (n + 1)) := by
  refine ⟨rfl, ?_, ?_, ?_⟩
  · intro n h
    unfold build_tree
    rw [h]
  · intro n items i item hls hget hdot
    unfold build_tree
    rw [hls]
    rw [List.mem_flatMap]
    refine ⟨(i, item), List.mk_mem_enum_iff_getElem?.mpr hget, ?_⟩
    dsimp only
    rw [if_neg (by simp [hdot])]
    split
    · exact List.mem_cons_self _ _
    · exact List.mem_singleton.mpr rfl
  · intro n items item hls hmem hdot
    constructor <;>
      (intro hin
       rcases build_tree_level_structure w fs path prfx n items hls _ hin with
         ⟨i, item2, hget2, hdot2, heq⟩ | ⟨r, hr | hr⟩)
    · -- "└── " collides with a sibling line: same connector length 4,
      -- so the entries coincide, contradicting dot vs non-dot
      have hdata := congrArg String.data heq
      simp only [String.data_append, List.append_assoc] at hdata
      have h2 := List.append_cancel_left hdata
      have hconnlen :
          ((if i = (pySorted items).length - 1 then "└── " else "├── ") :
            String).data.length = 4 := by
        split <;> rfl
      obtain ⟨hc, hi⟩ := List.append_inj h2 (by rw [hconnlen]; rfl)
      have hitem : item = item2 := String.ext hi
      rw [← hitem, hdot] at hdot2
      cases hdot2
    · have hdata : (prfx ++ "└── " ++ item).data =
          prfx.data ++ ('└' :: ("── " ++ item).data) := by
        simp only [String.data_append, List.append_assoc]
        rfl
      rw [hdata] at hr
      have h2 := List.append_cancel_left hr
      injection h2 with h3 _
      cases h3
    · have hdata : (prfx ++ "└── " ++ item).data =
          prfx.data ++ ('└' :: ("── " ++ item).data) := by
        simp only [String.data_append, List.append_assoc]
        rfl
      rw [hdata] at hr
      have h2 := List.append_cancel_left hr
      injection h2 with h3 _
      cases h3
    · have hdata := congrArg String.data heq
      simp only [String.data_append, List.append_assoc] at hdata
      have h2 := List.append_cancel_left hdata
      have hconnlen :
          ((if i = (pySorted items).length - 1 then "└── " else "├── ") :
            String).data.length = 4 := by
        split <;> rfl
      obtain ⟨hc, hi⟩ := List.append_inj h2 (by rw [hconnlen]; rfl)
      have hitem : item = item2 := String.ext hi
      rw [← hitem, hdot] at hdot2
      cases hdot2
    · have hdata : (prfx ++ "├── " ++ item).data =
          prfx.data ++ ('├' :: ("── " ++ item).data) := by
        simp only [String.data_append, List.append_assoc]
        rfl
      rw [hdata] at hr
      have h2 := List.append_cancel_left hr
      injection h2 with h3 _
      cases h3
    · have hdata : (prfx ++ "├── " ++ item).data =
          prfx.data ++ ('├' :: ("── " ++ item).data) := by
        simp only [String.data_append, List.append_assoc]
        rfl
      rw [hdata] at hr
      have h2 := List.append_cancel_left hr
      injection h2 with h3 _
      cases h3

theorem tree_amended_spec_witness :
    ("├── !b") ∈ build_tree testWorld testGlobal.fs "/d" "" 3 ∧
    ("└── .z") ∉ build_tree testWorld testGlobal.fs "/d" "" 3 := by
  have h := tree_amended_spec testWorld testGlobal.fs "/d" ""
  constructor
  · have h3 := h.2.2.1 2 ["!b", ".z"] 0 "!b" rfl (by rfl) (by decide)
    simpa using h3
  · have h4 := (h.2.2.2 2 ["!b", ".z"] ".z" rfl (by decide) (by decide)).1
    simpa using h4

end PyTerm
